import Mathlib

/-!
Verification of the `multi_connection_manager` crate: a shallow embedding of
`src/multi_connection_manager/src/lib.rs` (the `ConnectionConfig` URL builders,
the `MultiConnectionManager` registry construction, and the typed accessors),
together with theorems settling the specified properties.

The external r2d2 pooling primitive is modelled abstractly: registry
construction is parametrized by one pool-builder function per backend
(`String → Nat → Except String _`, mirroring `Pool::builder().max_size(n).build(manager)`
where the manager is made from the connection URL), and each accessor is
parametrized by the pool's checkout function (mirroring `conn.get()`).
`HashMap<String, MultiConnectionPool>` is modelled as an association list with
the map's observable insert-overwrites / first-match-get semantics.
-/

namespace Mcm

/-- Rust `DatabaseKind` (all three cargo features enabled). -/
inductive DatabaseKind where
  | Postgres
  | MySQL
  | SQLite
  deriving DecidableEq, Repr

/-- Rust `McmError`. -/
inductive McmError where
  | ConnectionError (db : DatabaseKind) (error : String)
  | InvalidConnectionNameError (db : DatabaseKind) (conn_name : String)
  | InvalidConnectionTypeError (db : DatabaseKind)
  | R2D2Error (db : DatabaseKind) (conn_name : String) (error : String)
  deriving DecidableEq, Repr

/-- Rust `ConnectionConfig`. `connection_count` is the Rust `u32`
(no arithmetic is ever performed on it, so `Nat` is a faithful carrier). -/
structure ConnectionConfig where
  connection_name : String
  database : DatabaseKind
  database_name : String
  database_host_url : String
  schema : Option String
  connection_count : Nat
  options : Option String
  deriving DecidableEq, Repr

/-- Rust `ConnectionConfig::pg_conn_url` (the four `format!` arms, verbatim). -/
def pg_conn_url (c : ConnectionConfig) : String :=
  match c.options, c.schema with
  | none, none =>
    c.database_host_url ++ "/" ++ c.database_name ++
      "?options=-c%20search_path%3D$user,public"
  | none, some sch =>
    c.database_host_url ++ "/" ++ c.database_name ++
      "?options=-c%20search_path%3D" ++ sch ++ ",$user,public"
  | some configs, none =>
    c.database_host_url ++ "/" ++ c.database_name ++ "?" ++ configs ++
      "&options=-c%20search_path%3D$user,public"
  | some configs, some sch =>
    c.database_host_url ++ "/" ++ c.database_name ++ "?" ++ configs ++
      "&options=-c%20search_path%3D" ++ sch ++ ",$user,public"

/-- Rust `ConnectionConfig::mysql_conn_url`. -/
def mysql_conn_url (c : ConnectionConfig) : String :=
  match c.options with
  | some configs => c.database_host_url ++ "/" ++ c.database_name ++ "?" ++ configs
  | none => c.database_host_url ++ "/" ++ c.database_name

/-- Rust `ConnectionConfig::sqlite_conn_url`. -/
def sqlite_conn_url (c : ConnectionConfig) : String :=
  if c.database_host_url = ":memory:" then c.database_host_url
  else c.database_host_url ++ c.database_name

/-- Rust `ConnectionConfig::conn_url`: dispatch on the backend kind. -/
def conn_url (c : ConnectionConfig) : String :=
  match c.database with
  | .Postgres => pg_conn_url c
  | .MySQL => mysql_conn_url c
  | .SQLite => sqlite_conn_url c

/-- Rust `MultiConnectionPool`: a tagged union over the three r2d2 pool types,
which are abstract here (`PP`, `MP`, `SP`). -/
inductive MultiConnectionPool (PP MP SP : Type) where
  | Pg (pool : PP)
  | Mysql (pool : MP)
  | Sqlite (pool : SP)
  deriving DecidableEq, Repr

/-- The backend tag of a stored pool. -/
def poolKind {PP MP SP : Type} : MultiConnectionPool PP MP SP → DatabaseKind
  | .Pg _ => .Postgres
  | .Mysql _ => .MySQL
  | .Sqlite _ => .SQLite

/-- `HashMap::insert` semantics on the association-list model:
overwrite the existing entry for the key, or append a fresh one. -/
def hmInsert {α : Type} (k : String) (v : α) : List (String × α) → List (String × α)
  | [] => [(k, v)]
  | (k', v') :: rest =>
    if k' = k then (k, v) :: rest else (k', v') :: hmInsert k v rest

/-- `HashMap::get` semantics on the association-list model. -/
def hmGet {α : Type} (k : String) : List (String × α) → Option α
  | [] => none
  | (k', v') :: rest => if k' = k then some v' else hmGet k rest

/-- Rust `MultiConnectionManager` is a newtype over
`HashMap<String, MultiConnectionPool>`. -/
def MultiConnectionManager (PP MP SP : Type) : Type :=
  List (String × MultiConnectionPool PP MP SP)

/-- One iteration of the loop body of `MultiConnectionManager::new`: dispatch on
`config.database`, build the pool for `config.conn_url()` bounded by
`config.connection_count` with the backend's builder, wrap a build failure as
`ConnectionError` carrying that branch's backend. -/
def buildPool {PP MP SP : Type}
    (bPg : String → Nat → Except String PP)
    (bMy : String → Nat → Except String MP)
    (bSq : String → Nat → Except String SP)
    (config : ConnectionConfig) :
    Except McmError (MultiConnectionPool PP MP SP) :=
  match config.database with
  | .Postgres =>
    match bPg (conn_url config) config.connection_count with
    | .ok p => .ok (.Pg p)
    | .error err => .error (.ConnectionError .Postgres err)
  | .MySQL =>
    match bMy (conn_url config) config.connection_count with
    | .ok p => .ok (.Mysql p)
    | .error err => .error (.ConnectionError .MySQL err)
  | .SQLite =>
    match bSq (conn_url config) config.connection_count with
    | .ok p => .ok (.Sqlite p)
    | .error err => .error (.ConnectionError .SQLite err)

/-- The `for config in value` loop of `MultiConnectionManager::new`, with the
accumulated map made explicit: the `?` operator propagates the first build
failure immediately; a successful pool is inserted under the config's name. -/
def newGo {PP MP SP : Type}
    (bPg : String → Nat → Except String PP)
    (bMy : String → Nat → Except String MP)
    (bSq : String → Nat → Except String SP)
    (acc : MultiConnectionManager PP MP SP) :
    List ConnectionConfig → Except McmError (MultiConnectionManager PP MP SP)
  | [] => .ok acc
  | config :: rest =>
    match buildPool bPg bMy bSq config with
    | .error e => .error e
    | .ok pool => newGo bPg bMy bSq (hmInsert config.connection_name pool acc) rest

/-- Rust `MultiConnectionManager::new`, starting from the empty map. -/
def MultiConnectionManager.new {PP MP SP : Type}
    (bPg : String → Nat → Except String PP)
    (bMy : String → Nat → Except String MP)
    (bSq : String → Nat → Except String SP)
    (value : List ConnectionConfig) :
    Except McmError (MultiConnectionManager PP MP SP) :=
  newGo bPg bMy bSq [] value

/-- Rust `MultiConnectionManager::get_pg_conn`, parametrized by the r2d2
checkout operation `conn.get()` of a Postgres pool. -/
def get_pg_conn {PP MP SP CP : Type}
    (checkoutPg : PP → Except String CP)
    (m : MultiConnectionManager PP MP SP) (name : String) : Except McmError CP :=
  match hmGet name m with
  | none => .error (.InvalidConnectionNameError .Postgres name)
  | some (.Pg pool) =>
    match checkoutPg pool with
    | .ok conn => .ok conn
    | .error err => .error (.R2D2Error .Postgres name err)
  | some _ => .error (.InvalidConnectionTypeError .Postgres)

/-- Rust `MultiConnectionManager::get_mysql_conn`. -/
def get_mysql_conn {PP MP SP CM : Type}
    (checkoutMy : MP → Except String CM)
    (m : MultiConnectionManager PP MP SP) (name : String) : Except McmError CM :=
  match hmGet name m with
  | none => .error (.InvalidConnectionNameError .MySQL name)
  | some (.Mysql pool) =>
    match checkoutMy pool with
    | .ok conn => .ok conn
    | .error err => .error (.R2D2Error .MySQL name err)
  | some _ => .error (.InvalidConnectionTypeError .MySQL)

/-- Rust `MultiConnectionManager::get_sqlite_conn`. -/
def get_sqlite_conn {PP MP SP CS : Type}
    (checkoutSq : SP → Except String CS)
    (m : MultiConnectionManager PP MP SP) (name : String) : Except McmError CS :=
  match hmGet name m with
  | none => .error (.InvalidConnectionNameError .SQLite name)
  | some (.Sqlite pool) =>
    match checkoutSq pool with
    | .ok conn => .ok conn
    | .error err => .error (.R2D2Error .SQLite name err)
  | some _ => .error (.InvalidConnectionTypeError .SQLite)

/-- The last config in input order bearing a given connection name. -/
def lastWithName (name : String) : List ConnectionConfig → Option ConnectionConfig
  | [] => none
  | c :: rest =>
    match lastWithName name rest with
    | some c' => some c'
    | none => if c.connection_name = name then some c else none

/-- A pool builder that always succeeds, remembering the URL and size it was
given; used to instantiate the registry theorems on concrete inputs. -/
def okBuild : String → Nat → Except String (String × Nat) :=
  fun url n => .ok (url, n)

/-- Concrete config: Postgres under the (duplicated) name `dup`. -/
def cfg1 : ConnectionConfig := ⟨"dup", .Postgres, "db1", "h1", none, 1, none⟩

/-- Concrete config: MySQL under the name `solo`. -/
def cfg2 : ConnectionConfig := ⟨"solo", .MySQL, "db2", "h2", none, 2, none⟩

/-- Concrete config: SQLite, re-using the name `dup`. -/
def cfg3 : ConnectionConfig := ⟨"dup", .SQLite, "db3", "h3", none, 3, none⟩

end Mcm

namespace Mcm

theorem empty_append_str (s : String) : "" ++ s = s := by
  cases s
  rfl

theorem hmGet_hmInsert {α : Type} (k k' : String) (v : α) (l : List (String × α)) :
    hmGet k (hmInsert k' v l) = if k' = k then some v else hmGet k l := by
  induction l with
  | nil => simp [hmInsert, hmGet]
  | cons hd tl ih =>
    obtain ⟨a, b⟩ := hd
    by_cases hak : a = k' <;> by_cases hkk : k' = k <;>
      simp_all [hmInsert, hmGet]

theorem buildPool_ok_kind {PP MP SP : Type}
    (bPg : String → Nat → Except String PP)
    (bMy : String → Nat → Except String MP)
    (bSq : String → Nat → Except String SP)
    (d : ConnectionConfig) (p : MultiConnectionPool PP MP SP)
    (h : buildPool bPg bMy bSq d = .ok p) : poolKind p = d.database := by
  cases hdb : d.database <;> rw [buildPool, hdb] at h
  · cases hb : bPg (conn_url d) d.connection_count <;> rw [hb] at h <;>
      cases h <;> simp [poolKind]
  · cases hb : bMy (conn_url d) d.connection_count <;> rw [hb] at h <;>
      cases h <;> simp [poolKind]
  · cases hb : bSq (conn_url d) d.connection_count <;> rw [hb] at h <;>
      cases h <;> simp [poolKind]

theorem buildPool_error_shape {PP MP SP : Type}
    (bPg : String → Nat → Except String PP)
    (bMy : String → Nat → Except String MP)
    (bSq : String → Nat → Except String SP)
    (d : ConnectionConfig) (e : McmError)
    (h : buildPool bPg bMy bSq d = .error e) :
    ∃ err, e = .ConnectionError d.database err := by
  cases hdb : d.database <;> rw [buildPool, hdb] at h
  · cases hb : bPg (conn_url d) d.connection_count <;> rw [hb] at h <;> cases h
    exact ⟨_, rfl⟩
  · cases hb : bMy (conn_url d) d.connection_count <;> rw [hb] at h <;> cases h
    exact ⟨_, rfl⟩
  · cases hb : bSq (conn_url d) d.connection_count <;> rw [hb] at h <;> cases h
    exact ⟨_, rfl⟩

theorem newGo_append {PP MP SP : Type}
    (bPg : String → Nat → Except String PP)
    (bMy : String → Nat → Except String MP)
    (bSq : String → Nat → Except String SP)
    (xs ys : List ConnectionConfig) :
    ∀ acc, newGo bPg bMy bSq acc (xs ++ ys) =
      match newGo bPg bMy bSq acc xs with
      | .ok m => newGo bPg bMy bSq m ys
      | .error e => .error e := by
  induction xs with
  | nil => intro acc; simp [newGo]
  | cons x xs ih =>
    intro acc
    simp only [List.cons_append, newGo]
    cases buildPool bPg bMy bSq x <;> simp [ih]

theorem newGo_ok_get {PP MP SP : Type}
    (bPg : String → Nat → Except String PP)
    (bMy : String → Nat → Except String MP)
    (bSq : String → Nat → Except String SP)
    (xs : List ConnectionConfig) :
    ∀ acc, (∀ d ∈ xs, ∃ p, buildPool bPg bMy bSq d = .ok p) →
      ∃ m, newGo bPg bMy bSq acc xs = .ok m ∧
        ∀ name, hmGet name m =
          match lastWithName name xs with
          | some d => (buildPool bPg bMy bSq d).toOption
          | none => hmGet name acc := by
  induction xs with
  | nil =>
    intro acc _
    exact ⟨acc, rfl, fun name => by simp [lastWithName]⟩
  | cons x xs ih =>
    intro acc hall
    obtain ⟨px, hx⟩ := hall x (List.mem_cons_self x xs)
    obtain ⟨m, hm, hget⟩ :=
      ih (hmInsert x.connection_name px acc) fun d hd => hall d (List.mem_cons_of_mem x hd)
    refine ⟨m, ?_, ?_⟩
    · simp [newGo, hx, hm]
    · intro name
      rw [hget name]
      simp only [lastWithName]
      cases hl : lastWithName name xs with
      | some d => rfl
      | none =>
        rw [hmGet_hmInsert]
        by_cases hn : x.connection_name = name
        · simp [hn, hx, Except.toOption]
        · simp [hn]

theorem lastWithName_mem (name : String) (xs : List ConnectionConfig)
    (d : ConnectionConfig) (h : lastWithName name xs = some d) :
    d ∈ xs ∧ d.connection_name = name := by
  induction xs with
  | nil => cases h
  | cons x xs ih =>
    rw [lastWithName] at h
    cases hl : lastWithName name xs with
    | some c => rw [hl] at h; cases h
                exact ⟨List.mem_cons_of_mem x (ih hl).1, (ih hl).2⟩
    | none =>
      rw [hl] at h
      by_cases hn : x.connection_name = name
      · rw [if_pos hn] at h; cases h; exact ⟨List.mem_cons_self _ _, hn⟩
      · rw [if_neg hn] at h; cases h

theorem lastWithName_isSome (name : String) (xs : List ConnectionConfig) :
    (lastWithName name xs).isSome ↔ ∃ d ∈ xs, d.connection_name = name := by
  induction xs with
  | nil => simp [lastWithName]
  | cons x xs ih =>
    rw [lastWithName]
    cases hl : lastWithName name xs with
    | some c =>
      simp only [Option.isSome_some, true_iff]
      have := lastWithName_mem name xs c hl
      exact ⟨c, List.mem_cons_of_mem x this.1, this.2⟩
    | none =>
      rw [hl] at ih
      by_cases hn : x.connection_name = name
      · simp only [if_pos hn, Option.isSome_some, true_iff]
        exact ⟨x, List.mem_cons_self x xs, hn⟩
      · simp only [if_neg hn, Option.isSome_none, Bool.false_eq_true, false_iff]
          at ih ⊢
        rintro ⟨d, hd, hdn⟩
        rcases List.mem_cons.mp hd with rfl | hd
        · exact hn hdn
        · exact ih ⟨d, hd, hdn⟩

theorem mergeQOpt (X : String) :
    "?" ++ ("options=-c%20search_path%3D" ++ X) =
      "?options=-c%20search_path%3D" ++ X := by
  rfl

theorem mergeAmpOpt (X : String) :
    "&" ++ ("options=-c%20search_path%3D" ++ X) =
      "&options=-c%20search_path%3D" ++ X := by
  rfl

theorem splitDirective (X : String) :
    "options=" ++ ("-c" ++ ("%20" ++ ("search_path" ++ ("%3D" ++ X)))) =
      "options=-c%20search_path%3D" ++ X := by
  simp only [← String.append_assoc]
  rfl

theorem splitC5q (X : String) :
    "?options=-c%20" ++ ("search_path%3D" ++ X) =
      "?options=-c%20search_path%3D" ++ X := by
  rfl

theorem splitC5amp (X : String) :
    "&options=-c%20" ++ ("search_path%3D" ++ X) =
      "&options=-c%20search_path%3D" ++ X := by
  rfl

theorem mergeQUser :
    ("?" : String) ++ "options=-c%20search_path%3D$user,public" =
      "?options=-c%20search_path%3D$user,public" := rfl

theorem mergeOptUser :
    ("?options=-c%20search_path%3D" : String) ++ "$user,public" =
      "?options=-c%20search_path%3D$user,public" := rfl

theorem mergeAmpUser :
    ("&options=-c%20search_path%3D" : String) ++ "$user,public" =
      "&options=-c%20search_path%3D$user,public" := rfl

/-- C4: the specific Postgres config (database "appdb", host
"db.example.com:5432", schema "tenant_a", no options) yields exactly the
expected connection URL. -/
theorem C4_pg_concrete_url :
    conn_url
      { connection_name := "main_pg", database := .Postgres,
        database_name := "appdb", database_host_url := "db.example.com:5432",
        schema := some "tenant_a", connection_count := 5, options := none } =
      "db.example.com:5432/appdb?options=-c%20search_path%3Dtenant_a,$user,public" := by
  decide

/-- C5: for every Postgres config, (1) with no schema and no options the URL
ends with the literal default-schema fallback clause; (2) a present schema is
placed in the search path immediately after the encoded `=`, before the
`$user,public` fallback, as the first alternative; (3) a present options
string is appended as a query parameter right after `?`, before the
search-path directive. -/
theorem C5_pg_url_structure (c : ConnectionConfig) (hdb : c.database = .Postgres) :
    (c.options = none → c.schema = none →
      ∃ p, conn_url c = p ++ "options=-c%20search_path%3D$user,public") ∧
    (∀ s, c.schema = some s →
      ∃ p, conn_url c = p ++ "search_path%3D" ++ s ++ ",$user,public") ∧
    (∀ o, c.options = some o →
      ∃ t, conn_url c = c.database_host_url ++ "/" ++ c.database_name ++ "?" ++ o ++
        ("&options=-c%20search_path%3D" ++ t)) := by
  obtain ⟨name, db, dbname, host, schema, cnt, opts⟩ := c
  subst hdb
  refine ⟨?_, ?_, ?_⟩
  · rintro rfl rfl
    exact ⟨host ++ "/" ++ dbname ++ "?", by
      simp [conn_url, pg_conn_url, String.append_assoc, mergeQUser]⟩
  · rintro s rfl
    cases opts with
    | none =>
      exact ⟨host ++ "/" ++ dbname ++ "?options=-c%20", by
        simp [conn_url, pg_conn_url, String.append_assoc, splitC5q]⟩
    | some o =>
      exact ⟨host ++ "/" ++ dbname ++ "?" ++ o ++ "&options=-c%20", by
        simp [conn_url, pg_conn_url, String.append_assoc, splitC5amp]⟩
  · rintro o rfl
    cases schema with
    | none =>
      exact ⟨"$user,public", by
        simp [conn_url, pg_conn_url, String.append_assoc, mergeAmpUser]⟩
    | some s =>
      exact ⟨s ++ ",$user,public", by
        simp [conn_url, pg_conn_url, String.append_assoc]⟩

/-- C5 witness: the three conjuncts instantiated at concrete Postgres
configs. -/
theorem C5_witness :
    (∃ p, conn_url ⟨"n", .Postgres, "db", "h", none, 1, none⟩ =
      p ++ "options=-c%20search_path%3D$user,public") ∧
    (∃ p, conn_url ⟨"n", .Postgres, "db", "h", some "t", 1, none⟩ =
      p ++ "search_path%3D" ++ "t" ++ ",$user,public") ∧
    (∃ t, conn_url ⟨"n", .Postgres, "db", "h", none, 1, some "o"⟩ =
      "h" ++ "/" ++ "db" ++ "?" ++ "o" ++ ("&options=-c%20search_path%3D" ++ t)) :=
  ⟨(C5_pg_url_structure ⟨"n", .Postgres, "db", "h", none, 1, none⟩ rfl).1 rfl rfl,
   (C5_pg_url_structure ⟨"n", .Postgres, "db", "h", some "t", 1, none⟩ rfl).2.1 "t" rfl,
   (C5_pg_url_structure ⟨"n", .Postgres, "db", "h", none, 1, some "o"⟩ rfl).2.2 "o" rfl⟩

/-- C6: in each of the four (options × schema) cases of a Postgres config, the
search-path directive appears in the URL with its separators URL-encoded: the
space between `-c` and `search_path` as the standalone token `%20`, and the
`=` between `search_path` and its value as the standalone token `%3D`, inside
a well-formed query string (`?`, then `options` when present joined by `&`). -/
theorem C6_pg_search_path_escaped (c : ConnectionConfig)
    (hdb : c.database = .Postgres) :
    (c.options = none → c.schema = none →
      conn_url c = c.database_host_url ++ "/" ++ c.database_name ++ "?" ++
        ("options=" ++ "-c" ++ "%20" ++ "search_path" ++ "%3D" ++ "$user,public")) ∧
    (∀ s, c.options = none → c.schema = some s →
      conn_url c = c.database_host_url ++ "/" ++ c.database_name ++ "?" ++
        ("options=" ++ "-c" ++ "%20" ++ "search_path" ++ "%3D" ++ s ++ ",$user,public")) ∧
    (∀ o, c.options = some o → c.schema = none →
      conn_url c = c.database_host_url ++ "/" ++ c.database_name ++ "?" ++ o ++ "&" ++
        ("options=" ++ "-c" ++ "%20" ++ "search_path" ++ "%3D" ++ "$user,public")) ∧
    (∀ o s, c.options = some o → c.schema = some s →
      conn_url c = c.database_host_url ++ "/" ++ c.database_name ++ "?" ++ o ++ "&" ++
        ("options=" ++ "-c" ++ "%20" ++ "search_path" ++ "%3D" ++ s ++ ",$user,public")) := by
  obtain ⟨name, db, dbname, host, schema, cnt, opts⟩ := c
  subst hdb
  refine ⟨?_, ?_, ?_, ?_⟩
  · rintro rfl rfl
    simp [conn_url, pg_conn_url, String.append_assoc, splitDirective, mergeQOpt,
      mergeOptUser]
  · rintro s rfl rfl
    simp [conn_url, pg_conn_url, String.append_assoc, splitDirective, mergeQOpt]
  · rintro o rfl rfl
    simp [conn_url, pg_conn_url, String.append_assoc, splitDirective, mergeAmpOpt,
      mergeAmpUser]
  · rintro o s rfl rfl
    simp [conn_url, pg_conn_url, String.append_assoc, splitDirective, mergeAmpOpt]

/-- C6 witness: the four cases instantiated at concrete Postgres configs. -/
theorem C6_witness :
    conn_url ⟨"n", .Postgres, "db", "h", none, 1, none⟩ =
      "h" ++ "/" ++ "db" ++ "?" ++
        ("options=" ++ "-c" ++ "%20" ++ "search_path" ++ "%3D" ++ "$user,public") ∧
    conn_url ⟨"n", .Postgres, "db", "h", some "t", 1, none⟩ =
      "h" ++ "/" ++ "db" ++ "?" ++
        ("options=" ++ "-c" ++ "%20" ++ "search_path" ++ "%3D" ++ "t" ++ ",$user,public") ∧
    conn_url ⟨"n", .Postgres, "db", "h", none, 1, some "o"⟩ =
      "h" ++ "/" ++ "db" ++ "?" ++ "o" ++ "&" ++
        ("options=" ++ "-c" ++ "%20" ++ "search_path" ++ "%3D" ++ "$user,public") ∧
    conn_url ⟨"n", .Postgres, "db", "h", some "t", 1, some "o"⟩ =
      "h" ++ "/" ++ "db" ++ "?" ++ "o" ++ "&" ++
        ("options=" ++ "-c" ++ "%20" ++ "search_path" ++ "%3D" ++ "t" ++ ",$user,public") :=
  ⟨(C6_pg_search_path_escaped ⟨"n", .Postgres, "db", "h", none, 1, none⟩ rfl).1 rfl rfl,
   (C6_pg_search_path_escaped ⟨"n", .Postgres, "db", "h", some "t", 1, none⟩ rfl).2.1
     "t" rfl rfl,
   (C6_pg_search_path_escaped ⟨"n", .Postgres, "db", "h", none, 1, some "o"⟩ rfl).2.2.1
     "o" rfl rfl,
   (C6_pg_search_path_escaped ⟨"n", .Postgres, "db", "h", some "t", 1, some "o"⟩ rfl).2.2.2
     "o" "t" rfl rfl⟩

/-- C7: a MySQL config's URL ignores the schema field entirely and is
`host_url/database_name`, with `?options` appended when options are present. -/
theorem C7_mysql_url (c : ConnectionConfig) (hdb : c.database = .MySQL) :
    (c.options = none →
      conn_url c = c.database_host_url ++ "/" ++ c.database_name) ∧
    (∀ o, c.options = some o →
      conn_url c = c.database_host_url ++ "/" ++ c.database_name ++ "?" ++ o) ∧
    (∀ s, conn_url { c with schema := s } = conn_url c) := by
  obtain ⟨name, db, dbname, host, schema, cnt, opts⟩ := c
  subst hdb
  refine ⟨?_, ?_, ?_⟩
  · rintro rfl
    simp [conn_url, mysql_conn_url]
  · rintro o rfl
    simp [conn_url, mysql_conn_url]
  · intro s
    cases opts <;> simp [conn_url, mysql_conn_url]

/-- C7 witness: both option cases and schema-independence at concrete
MySQL configs. -/
theorem C7_witness :
    conn_url ⟨"n", .MySQL, "db", "h", some "sch", 1, none⟩ = "h" ++ "/" ++ "db" ∧
    conn_url ⟨"n", .MySQL, "db", "h", none, 1, some "o"⟩ =
      "h" ++ "/" ++ "db" ++ "?" ++ "o" ∧
    conn_url ⟨"n", .MySQL, "db", "h", some "x", 3, none⟩ =
      conn_url ⟨"n", .MySQL, "db", "h", none, 3, none⟩ :=
  ⟨(C7_mysql_url ⟨"n", .MySQL, "db", "h", some "sch", 1, none⟩ rfl).1 rfl,
   (C7_mysql_url ⟨"n", .MySQL, "db", "h", none, 1, some "o"⟩ rfl).2.1 "o" rfl,
   (C7_mysql_url ⟨"n", .MySQL, "db", "h", none, 3, none⟩ rfl).2.2 (some "x")⟩

/-- C8: a SQLite config whose host is the `:memory:` sentinel yields
`:memory:` whatever the other fields are; any other host yields the plain
concatenation `host_url ++ database_name`, ignoring schema and options. -/
theorem C8_sqlite_url (c : ConnectionConfig) (hdb : c.database = .SQLite) :
    (c.database_host_url = ":memory:" → conn_url c = ":memory:") ∧
    (c.database_host_url = ":memory:" → ∀ dn s o,
      conn_url { c with database_name := dn, schema := s, options := o } = ":memory:") ∧
    (c.database_host_url ≠ ":memory:" →
      conn_url c = c.database_host_url ++ c.database_name) := by
  obtain ⟨name, db, dbname, host, schema, cnt, opts⟩ := c
  subst hdb
  refine ⟨?_, ?_, ?_⟩
  · rintro rfl
    simp [conn_url, sqlite_conn_url]
  · rintro rfl dn s o
    simp [conn_url, sqlite_conn_url]
  · intro hne
    simp [conn_url, sqlite_conn_url, hne]

/-- C8 witness: the spec's concrete scenario (`cache_sqlite`) plus a
file-path SQLite config. -/
theorem C8_witness :
    conn_url ⟨"cache_sqlite", .SQLite, "cache.db", ":memory:", none, 1, none⟩ =
      ":memory:" ∧
    conn_url ⟨"f", .SQLite, "data.db", "/var/db/", none, 1, none⟩ =
      "/var/db/" ++ "data.db" :=
  ⟨(C8_sqlite_url ⟨"cache_sqlite", .SQLite, "cache.db", ":memory:", none, 1, none⟩
      rfl).1 rfl,
   (C8_sqlite_url ⟨"f", .SQLite, "data.db", "/var/db/", none, 1, none⟩ rfl).2.2
     (by decide)⟩

/-- C9: the built connection string never depends on the connection name or
the pool size: overwriting those two fields with anything leaves `conn_url`
unchanged, for every backend. -/
theorem C9_url_ignores_name_and_count (c : ConnectionConfig)
    (name : String) (cnt : Nat) :
    conn_url { c with connection_name := name, connection_count := cnt } =
      conn_url c := by
  obtain ⟨n0, db, dbname, host, schema, c0, opts⟩ := c
  cases db <;> cases schema <;> cases opts <;>
    simp [conn_url, pg_conn_url, mysql_conn_url, sqlite_conn_url]

/-- C10: a SQLite config with an empty (non-sentinel) host URL yields exactly
`database_name`: nothing is prepended and no separator is inserted. -/
theorem C10_sqlite_empty_host (c : ConnectionConfig) (hdb : c.database = .SQLite)
    (hurl : c.database_host_url = "") :
    conn_url c = c.database_name := by
  obtain ⟨name, db, dbname, host, schema, cnt, opts⟩ := c
  subst hdb
  subst hurl
  simp [conn_url, sqlite_conn_url, empty_append_str]

/-- C10 witness: the example program's SQLite configs use an empty host URL. -/
theorem C10_witness :
    conn_url ⟨"test_1_sqlite", .SQLite, "test1.db", "", some "test1", 5, none⟩ =
      "test1.db" :=
  C10_sqlite_empty_host
    ⟨"test_1_sqlite", .SQLite, "test1.db", "", some "test1", 5, none⟩ rfl rfl

/-- C1: for every registry and name, each typed accessor fails with
`InvalidConnectionNameError` (carrying its backend and the name) when the name
is absent, fails with `InvalidConnectionTypeError` (carrying its backend) and
never yields a connection when the stored pool's tag differs from the
accessor's backend, and otherwise delegates to the pool's checkout, wrapping a
checkout failure as `R2D2Error` with backend and name. -/
theorem C1_accessor_dispatch {PP MP SP CP CM CS : Type}
    (checkoutPg : PP → Except String CP)
    (checkoutMy : MP → Except String CM)
    (checkoutSq : SP → Except String CS)
    (m : MultiConnectionManager PP MP SP) (name : String) :
    (hmGet name m = none →
      get_pg_conn checkoutPg m name =
        .error (.InvalidConnectionNameError .Postgres name) ∧
      get_mysql_conn checkoutMy m name =
        .error (.InvalidConnectionNameError .MySQL name) ∧
      get_sqlite_conn checkoutSq m name =
        .error (.InvalidConnectionNameError .SQLite name)) ∧
    (∀ pool, hmGet name m = some pool →
      (poolKind pool ≠ .Postgres →
        get_pg_conn checkoutPg m name =
          .error (.InvalidConnectionTypeError .Postgres)) ∧
      (poolKind pool ≠ .MySQL →
        get_mysql_conn checkoutMy m name =
          .error (.InvalidConnectionTypeError .MySQL)) ∧
      (poolKind pool ≠ .SQLite →
        get_sqlite_conn checkoutSq m name =
          .error (.InvalidConnectionTypeError .SQLite))) ∧
    (∀ p, hmGet name m = some (.Pg p) →
      get_pg_conn checkoutPg m name =
        (checkoutPg p).mapError (fun err => .R2D2Error .Postgres name err)) ∧
    (∀ p, hmGet name m = some (.Mysql p) →
      get_mysql_conn checkoutMy m name =
        (checkoutMy p).mapError (fun err => .R2D2Error .MySQL name err)) ∧
    (∀ p, hmGet name m = some (.Sqlite p) →
      get_sqlite_conn checkoutSq m name =
        (checkoutSq p).mapError (fun err => .R2D2Error .SQLite name err)) := by
  refine ⟨?_, ?_, ?_, ?_, ?_⟩
  · intro h
    exact ⟨by simp [get_pg_conn, h], by simp [get_mysql_conn, h],
      by simp [get_sqlite_conn, h]⟩
  · intro pool h
    refine ⟨?_, ?_, ?_⟩ <;> intro hne
    · cases pool with
      | Pg p => exact absurd rfl hne
      | Mysql p => simp [get_pg_conn, h]
      | Sqlite p => simp [get_pg_conn, h]
    · cases pool with
      | Pg p => simp [get_mysql_conn, h]
      | Mysql p => exact absurd rfl hne
      | Sqlite p => simp [get_mysql_conn, h]
    · cases pool with
      | Pg p => simp [get_sqlite_conn, h]
      | Mysql p => simp [get_sqlite_conn, h]
      | Sqlite p => exact absurd rfl hne
  · intro p h
    cases hc : checkoutPg p <;> simp [get_pg_conn, h, hc, Except.mapError]
  · intro p h
    cases hc : checkoutMy p <;> simp [get_mysql_conn, h, hc, Except.mapError]
  · intro p h
    cases hc : checkoutSq p <;> simp [get_sqlite_conn, h, hc, Except.mapError]

/-- C1 witness: name absent, wrong backend tag, and matching-tag delegation on
a one-entry registry. -/
theorem C1_witness :
    get_pg_conn (fun p : Nat => Except.ok p)
      ([("a", MultiConnectionPool.Pg 0)] : MultiConnectionManager Nat Nat Nat) "b" =
      Except.error (McmError.InvalidConnectionNameError .Postgres "b") ∧
    get_mysql_conn (fun p : Nat => Except.ok p)
      ([("a", MultiConnectionPool.Pg 0)] : MultiConnectionManager Nat Nat Nat) "a" =
      Except.error (McmError.InvalidConnectionTypeError .MySQL) ∧
    get_pg_conn (fun p : Nat => Except.ok p)
      ([("a", MultiConnectionPool.Pg 0)] : MultiConnectionManager Nat Nat Nat) "a" =
      (Except.ok 0).mapError (fun err => McmError.R2D2Error .Postgres "a" err) :=
  ⟨((C1_accessor_dispatch (fun p : Nat => Except.ok p) (fun p : Nat => Except.ok p)
      (fun p : Nat => Except.ok p)
      ([("a", MultiConnectionPool.Pg 0)] : MultiConnectionManager Nat Nat Nat) "b").1
      (by decide)).1,
   (((C1_accessor_dispatch (fun p : Nat => Except.ok p) (fun p : Nat => Except.ok p)
      (fun p : Nat => Except.ok p)
      ([("a", MultiConnectionPool.Pg 0)] : MultiConnectionManager Nat Nat Nat) "a").2.1
      (MultiConnectionPool.Pg 0) (by decide)).2.1 (by decide)),
   ((C1_accessor_dispatch (fun p : Nat => Except.ok p) (fun p : Nat => Except.ok p)
      (fun p : Nat => Except.ok p)
      ([("a", MultiConnectionPool.Pg 0)] : MultiConnectionManager Nat Nat Nat) "a").2.2.1
      0 (by decide))⟩

/-- C2: if every config before `c` builds its pool and `c`'s build fails, the
whole `new` call fails with exactly that failure — which is a
`ConnectionError` carrying `c`'s backend and the underlying cause — and no
registry is ever returned. -/
theorem C2_build_fail_fast {PP MP SP : Type}
    (bPg : String → Nat → Except String PP)
    (bMy : String → Nat → Except String MP)
    (bSq : String → Nat → Except String SP)
    (pre : List ConnectionConfig) (c : ConnectionConfig)
    (rest : List ConnectionConfig) (e : McmError)
    (hpre : ∀ d ∈ pre, ∃ p, buildPool bPg bMy bSq d = .ok p)
    (hc : buildPool bPg bMy bSq c = .error e) :
    MultiConnectionManager.new bPg bMy bSq (pre ++ c :: rest) = .error e ∧
    (∃ err, e = .ConnectionError c.database err) ∧
    ∀ m, MultiConnectionManager.new bPg bMy bSq (pre ++ c :: rest) ≠ .ok m := by
  obtain ⟨m0, hm0, _⟩ := newGo_ok_get bPg bMy bSq pre [] hpre
  have h1 : MultiConnectionManager.new bPg bMy bSq (pre ++ c :: rest) = .error e := by
    rw [MultiConnectionManager.new, newGo_append bPg bMy bSq pre (c :: rest) [], hm0]
    simp [newGo, hc]
  exact ⟨h1, buildPool_error_shape bPg bMy bSq c e hc,
    fun m hm => by rw [h1] at hm; cases hm⟩

/-- C2 witness: a failing Postgres builder aborts a two-config build with the
Postgres `ConnectionError` and no registry. -/
theorem C2_witness :
    MultiConnectionManager.new
        (fun _ _ => (Except.error "boom" : Except String Nat))
        (fun _ _ => (Except.ok 0 : Except String Nat))
        (fun _ _ => (Except.ok 0 : Except String Nat))
        ([] ++ (⟨"n", .Postgres, "db", "h", none, 1, none⟩ : ConnectionConfig) ::
          [⟨"m2", .MySQL, "db2", "h2", none, 1, none⟩]) =
      Except.error (McmError.ConnectionError .Postgres "boom") ∧
    (∃ err, (McmError.ConnectionError .Postgres "boom") =
      .ConnectionError
        (⟨"n", .Postgres, "db", "h", none, 1, none⟩ : ConnectionConfig).database err) ∧
    ∀ m, MultiConnectionManager.new
        (fun _ _ => (Except.error "boom" : Except String Nat))
        (fun _ _ => (Except.ok 0 : Except String Nat))
        (fun _ _ => (Except.ok 0 : Except String Nat))
        ([] ++ (⟨"n", .Postgres, "db", "h", none, 1, none⟩ : ConnectionConfig) ::
          [⟨"m2", .MySQL, "db2", "h2", none, 1, none⟩]) ≠ .ok m :=
  C2_build_fail_fast
    (fun _ _ => (Except.error "boom" : Except String Nat))
    (fun _ _ => (Except.ok 0 : Except String Nat))
    (fun _ _ => (Except.ok 0 : Except String Nat))
    [] ⟨"n", .Postgres, "db", "h", none, 1, none⟩
    [⟨"m2", .MySQL, "db2", "h2", none, 1, none⟩]
    (McmError.ConnectionError .Postgres "boom")
    (fun d hd => absurd hd (List.not_mem_nil d)) rfl

/-- C3: when every pool build succeeds, `new` returns a registry holding
exactly the distinct input names, each name mapping to the pool built from the
last config bearing it (last-write-wins), with every entry's tag equal to that
config's backend kind. -/
theorem C3_build_success_registry {PP MP SP : Type}
    (bPg : String → Nat → Except String PP)
    (bMy : String → Nat → Except String MP)
    (bSq : String → Nat → Except String SP)
    (configs : List ConnectionConfig)
    (hall : ∀ d ∈ configs, ∃ p, buildPool bPg bMy bSq d = .ok p) :
    ∃ m, MultiConnectionManager.new bPg bMy bSq configs = .ok m ∧
      (∀ name, hmGet name m =
        match lastWithName name configs with
        | some d => (buildPool bPg bMy bSq d).toOption
        | none => none) ∧
      (∀ name, (hmGet name m).isSome ↔
        ∃ d ∈ configs, d.connection_name = name) ∧
      (∀ name pool, hmGet name m = some pool →
        ∃ d, lastWithName name configs = some d ∧ d.connection_name = name ∧
          poolKind pool = d.database) := by
  obtain ⟨m, hm, hget⟩ := newGo_ok_get bPg bMy bSq configs [] hall
  refine ⟨m, hm, ?_, ?_, ?_⟩
  · intro name
    rw [hget name]
    cases lastWithName name configs <;> rfl
  · intro name
    rw [hget name]
    cases hl : lastWithName name configs with
    | some d =>
      have hmem := lastWithName_mem name configs d hl
      obtain ⟨p, hp⟩ := hall d hmem.1
      simp only [hp, Except.toOption, Option.isSome_some, true_iff]
      exact ⟨d, hmem.1, hmem.2⟩
    | none =>
      simp only [hmGet, Option.isSome_none, Bool.false_eq_true, false_iff]
      have h2 := lastWithName_isSome name configs
      rw [hl] at h2
      exact fun hex => by simpa using h2.mpr hex
  · intro name pool hpool
    rw [hget name] at hpool
    cases hl : lastWithName name configs with
    | some d =>
      rw [hl] at hpool
      have hmem := lastWithName_mem name configs d hl
      obtain ⟨p, hp⟩ := hall d hmem.1
      simp only [hp, Except.toOption, Option.some_inj] at hpool
      exact ⟨d, rfl, hmem.2, hpool ▸ buildPool_ok_kind bPg bMy bSq d p hp⟩
    | none =>
      rw [hl] at hpool
      cases hpool

/-- C3 witness: three all-succeeding configs where the name `dup` is used by
the first (Postgres) and the last (SQLite) config. -/
theorem C3_witness :
    ∃ m, MultiConnectionManager.new okBuild okBuild okBuild [cfg1, cfg2, cfg3] =
        .ok m ∧
      (∀ name, hmGet name m =
        match lastWithName name [cfg1, cfg2, cfg3] with
        | some d => (buildPool okBuild okBuild okBuild d).toOption
        | none => none) ∧
      (∀ name, (hmGet name m).isSome ↔
        ∃ d ∈ [cfg1, cfg2, cfg3], d.connection_name = name) ∧
      (∀ name pool, hmGet name m = some pool →
        ∃ d, lastWithName name [cfg1, cfg2, cfg3] = some d ∧
          d.connection_name = name ∧ poolKind pool = d.database) :=
  C3_build_success_registry okBuild okBuild okBuild [cfg1, cfg2, cfg3] (by
    intro d hd
    simp only [List.mem_cons, List.not_mem_nil, or_false] at hd
    rcases hd with rfl | rfl | rfl <;> exact ⟨_, rfl⟩)

end Mcm
